import Mathlib

/-!
# Verification of the commweb-tui core

Shallow embedding of the markup extraction pipeline (`src/board.rs`),
the blocking fetch gateway (`src/network.rs`, `read_board_rows` in
`src/main.rs`) and the event-driven navigation loop (`main` in
`src/main.rs`), together with theorems settling the specification's
claims about them.

Markup documents are embedded at the parsed level: an `HNode` tree
stands for a node of the document produced by `Document::from`, with
the `class` attribute already split into a list of class names.  The
`select` crate's queries (`Class`, `Name`, `Predicate::descendant`,
`Node::text`, `Node::attr`) are modelled over this tree.  Rust panics
(`unwrap` / `expect` on a missing value) are modelled by `Option`:
`none` means the call aborts.
-/

namespace Commweb

/-- A parsed markup node: either a text node or an element with a tag
name, a list of class names, an attribute list and children. -/
inductive HNode where
  | text (s : String) : HNode
  | elem (tag : String) (classes : List String)
      (attrs : List (String × String)) (children : List HNode) : HNode
deriving Repr

/-- A leaf predicate of the `select` crate: `Class(c)` or `Name(t)`. -/
inductive SimplePred where
  | cls (c : String) : SimplePred
  | tag (t : String) : SimplePred
deriving Repr

/-- A query predicate as used by the source: a leaf predicate or a
`a.descendant(b)` combination of two leaf predicates. -/
inductive Pred where
  | simple (p : SimplePred) : Pred
  | descendant (a b : SimplePred) : Pred
deriving Repr

/-- Does a node carry the given class? (text nodes carry none). -/
def hasClass (c : String) : HNode → Bool
  | .text _ => false
  | .elem _ classes _ _ => classes.contains c

/-- Does a node have the given tag name? (text nodes have none). -/
def hasTag (t : String) : HNode → Bool
  | .text _ => false
  | .elem tag _ _ _ => tag == t

/-- Matching of a leaf predicate against a single node. -/
def SimplePred.matches : SimplePred → HNode → Bool
  | .cls c, n => hasClass c n
  | .tag t, n => hasTag t n

/-- Matching of a predicate against a node given the list of its
ancestors (nearest first): `a.descendant(b)` matches a node that `b`
matches and that has an ancestor matched by `a`. -/
def Pred.matches (p : Pred) (anc : List HNode) (n : HNode) : Bool :=
  match p with
  | .simple sp => sp.matches n
  | .descendant a b => b.matches n && anc.any (fun x => a.matches x)

mutual

/-- All nodes of the subtree rooted at `n` (itself included) matching
`p`, in document (pre-)order; `anc` are the ancestors of `n`. -/
def selectNode (p : Pred) (anc : List HNode) (n : HNode) : List HNode :=
  (if p.matches anc n then [n] else []) ++
    (match n with
     | .text _ => []
     | .elem tag classes attrs ch =>
         selectForest p (HNode.elem tag classes attrs ch :: anc) ch)

/-- `selectNode` over a list of sibling subtrees. -/
def selectForest (p : Pred) (anc : List HNode) : List HNode → List HNode
  | [] => []
  | n :: ns => selectNode p anc n ++ selectForest p anc ns

end

/-- `Node::find(p)` of the `select` crate scoped to `li`: the matching
strict descendants of `li`, in document order (the scope node itself is
not a candidate but does count as an ancestor). -/
def nodeSelect (p : Pred) (li : HNode) : List HNode :=
  match li with
  | .text _ => []
  | .elem tag classes attrs ch =>
      selectForest p [HNode.elem tag classes attrs ch] ch

/-- `Document::find(p)`: all matching nodes of the document (a forest
of root nodes), in document order. -/
def docSelect (p : Pred) (doc : List HNode) : List HNode :=
  selectForest p [] doc

mutual

/-- `Node::text()`: the concatenated text of the subtree. -/
def innerText : HNode → String
  | .text s => s
  | .elem _ _ _ ch => innerTextForest ch

/-- `innerText` concatenated over a list of sibling subtrees. -/
def innerTextForest : List HNode → String
  | [] => ""
  | n :: ns => innerText n ++ innerTextForest ns

end

/-- `Node::attr(key)`: the value of the first attribute named `key`. -/
def HNode.attr (n : HNode) (key : String) : Option String :=
  match n with
  | .text _ => none
  | .elem _ _ attrs _ => (attrs.find? (fun a => a.1 == key)).map (·.2)

/-! ## Strings: Rust `str::trim` and `str::parse::<u32>` -/

/-- Whitespace as trimmed by Rust's `str::trim` (restricted to the
ASCII whitespace characters; the full Unicode class is irrelevant for
the properties below). -/
def isRustWhitespace (c : Char) : Bool :=
  c == ' ' || c == '\t' || c == '\n' || c == '\r' || c == '\x0b' || c == '\x0c'

/-- Rust `str::trim`: strip leading and trailing whitespace. -/
def rustTrim (s : String) : String :=
  String.mk (((s.toList.dropWhile isRustWhitespace).reverse.dropWhile
      isRustWhitespace).reverse)

/-- Rust `str::parse::<u32>`: an optional leading `+`, then one or
more ASCII digits, value below `2 ^ 32`; anything else is an error
(`none`). -/
def parse_u32 (s : String) : Option Nat :=
  let ds := match s.toList with
    | '+' :: rest => rest
    | l => l
  if ds.isEmpty then none
  else if ds.all Char.isDigit then
    let v := ds.foldl (fun acc c => acc * 10 + (c.toNat - 48)) 0
    if v < 4294967296 then some v else none
  else none

/-! ## The extraction pipeline of `src/board.rs` -/

/-- `BoardRow` of `src/board.rs` (`comment_count: u32` is carried as a
`Nat`; the parse bounds it below `2 ^ 32`). -/
structure BoardRow where
  title : String
  url : String
  comment_count : Nat
  nickname : String
  hit_count : String
  timestamp : String
deriving Repr, DecidableEq

/-- `Class("symph_row")`: the row containers. -/
def symphRowP : Pred := .simple (.cls "symph_row")

/-- `Class("subject_fixed")`: the subject (title) node. -/
def subjectP : Pred := .simple (.cls "subject_fixed")

/-- `Class("list_subject")`: the subject link node. -/
def linkP : Pred := .simple (.cls "list_subject")

/-- `Class("rSymph05")`: the comment-count marker node. -/
def commentP : Pred := .simple (.cls "rSymph05")

/-- `Class("list_author").descendant(Class("nickname"))`. -/
def nickP : Pred := .descendant (.cls "list_author") (.cls "nickname")

/-- `Class("list_author").descendant(Name("img"))`. -/
def imgP : Pred := .descendant (.cls "list_author") (.tag "img")

/-- `Class("list_hit").descendant(Class("hit"))`: the view count. -/
def hitP : Pred := .descendant (.cls "list_hit") (.cls "hit")

/-- `Class("list_time").descendant(Class("timestamp"))`. -/
def tsP : Pred := .descendant (.cls "list_time") (.cls "timestamp")

/-- `BoardRow::get_comment_count` (board.rs:78-84): `"0"` when the
`rSymph05` marker is absent, otherwise the marker's text.  (The source
runs the same query twice — once for the `is_none` test, once for the
value — which is the single `match` below.)  This helper never
panics. -/
def get_comment_count (li : HNode) : String :=
  match (nodeSelect commentP li).head? with
  | none => "0"
  | some n => innerText n

/-- `BoardRow::get_nickname` (board.rs:86-102): the text of the first
`list_author nickname` node; if that text is blank, the `alt`
attribute of the first `list_author img` node; the result is trimmed.
`unwrap` on a missing nickname node, a missing image node or a missing
`alt` attribute panics (`none`). -/
def get_nickname (li : HNode) : Option String := do
  let nick ← (nodeSelect nickP li).head?
  let item_nickname := innerText nick
  let item_nickname ←
    if rustTrim item_nickname == "" then do
      let img ← (nodeSelect imgP li).head?
      let alt ← img.attr "alt"
      pure alt
    else pure item_nickname
  pure (rustTrim item_nickname)

/-- The body of the `for list_item in list_items` loop of
`BoardRow::get_board_data` (board.rs:37-73): resolve the five fields
of one row container, panicking (`none`) on any missing required
field, in the source's evaluation order. -/
def extractRow (li : HNode) : Option BoardRow := do
  let subject ← (nodeSelect subjectP li).head?
  let title := innerText subject
  let link ← (nodeSelect linkP li).head?
  let url ← link.attr "href"
  let comment_count := get_comment_count li
  let nickname ← get_nickname li
  let hit ← (nodeSelect hitP li).head?
  let hit_count := innerText hit
  let ts ← (nodeSelect tsP li).head?
  let timestamp := innerText ts
  pure { title := title, url := url,
         comment_count := (parse_u32 comment_count).getD 0,
         nickname := nickname, hit_count := hit_count,
         timestamp := timestamp }

/-- The loop of `get_board_data` over the selected row containers: a
panic in any iteration aborts the whole call; otherwise the rows are
pushed in iteration order. -/
def extractRows : List HNode → Option (List BoardRow)
  | [] => some []
  | li :: rest => do
      let r ← extractRow li
      let rs ← extractRows rest
      pure (r :: rs)

/-- `BoardRow::get_board_data` (board.rs:30-76) on a parsed document:
iterate over `document.select(Class("symph_row"))` and build the row
list; `none` models a panic aborting the call. -/
def get_board_data (doc : List HNode) : Option (List BoardRow) :=
  extractRows (docSelect symphRowP doc)

/-- The conjunction of the queries `get_board_data` unwraps for one
row container — everything except the comment-count marker, which has
a total fallback.  `extractRow` succeeds exactly on containers
satisfying it (`extractRow_isSome`). -/
def rowRequiredOk (li : HNode) : Bool :=
  (nodeSelect subjectP li).head?.isSome &&
  (match (nodeSelect linkP li).head? with
   | some l => (l.attr "href").isSome
   | none => false) &&
  (match (nodeSelect nickP li).head? with
   | some nick =>
       if rustTrim (innerText nick) == "" then
         match (nodeSelect imgP li).head? with
         | some img => (img.attr "alt").isSome
         | none => false
       else true
   | none => false) &&
  (nodeSelect hitP li).head?.isSome &&
  (nodeSelect tsP li).head?.isSome

/-! ## The fetch gateway (`src/network.rs`, `read_board_rows`) -/

/-- Outcome of one blocking `send()` as observed by the caller: a
transport error, or a response with an HTTP status and a body; the
body is `none` when `text()` fails, and is carried at the parsed level
(`Document::from` applied to the body text). -/
inductive NetResult where
  | err : NetResult
  | ok (status : Nat) (body : Option (List HNode)) : NetResult

/-- `network::request_url` (network.rs:4-14): returns the response
whatever its status; `.expect("Unable to get response.")` panics
(`none`) on a transport error.  No status check is performed. -/
def request_url : NetResult → Option (Nat × Option (List HNode))
  | .err => none
  | .ok status body => some (status, body)

/-- `read_board_rows` (main.rs:397-405): fetch, then
`resp.text().unwrap()` (panic on an unreadable body), then extract.
`some rows` is the `Ok(rows)` the source always returns when it does
not panic; `none` is a panic aborting the process. -/
def read_board_rows (net : NetResult) : Option (List BoardRow) := do
  let resp ← request_url net
  let body ← resp.2
  get_board_data body

/-! ## The navigation loop of `src/main.rs` -/

/-- `MenuItem` (main.rs:33-36). -/
inductive MenuItem where
  | Home : MenuItem
  | Boards : MenuItem
deriving Repr, DecidableEq

/-- `Board` (main.rs:47-50). -/
structure Board where
  name : String
  uri : String
deriving Repr, DecidableEq

/-- `read_boards` (main.rs:387-395): the static board registry, a
single board. -/
def read_boards : List Board := [{ name := "추천글", uri := "recommend" }]

/-- The key codes the loop distinguishes (main.rs:219-247). -/
inductive KeyCode where
  | char (c : Char) : KeyCode
  | down : KeyCode
  | up : KeyCode
  | other : KeyCode
deriving Repr, DecidableEq

/-- `Event<KeyEvent>` (main.rs:19-22): a key input or a timer tick. -/
inductive AppEvent where
  | input (k : KeyCode) : AppEvent
  | tick : AppEvent
deriving Repr, DecidableEq

/-- The mutable state of the consumer loop: `active_menu_item` and the
selected index of `board_list_state` (main.rs:149-151). -/
structure AppState where
  active_menu_item : MenuItem
  board_list_state : Option Nat
deriving Repr, DecidableEq

/-- The `KeyCode::Down` arm (main.rs:227-236): with `amount_boards`
hardcoded to `1`, wrap to `0` from the last index, else advance; no
selection means no change. -/
def handleDown (sel : Option Nat) : Option Nat :=
  match sel with
  | some selected =>
      let amount_boards := 1
      if selected ≥ amount_boards - 1 then some 0 else some (selected + 1)
  | none => none

/-- The `KeyCode::Up` arm (main.rs:237-246): decrement, wrapping from
`0` to `amount_boards - 1` (with `amount_boards = 1`). -/
def handleUp (sel : Option Nat) : Option Nat :=
  match sel with
  | some selected =>
      let amount_boards := 1
      if selected > 0 then some (selected - 1) else some (amount_boards - 1)
  | none => none

/-- One dispatch of `match rx.recv()?` (main.rs:218-250): `none` is
the `break` on `q` (quit); every other event yields the next state. -/
def step (s : AppState) (e : AppEvent) : Option AppState :=
  match e with
  | .tick => some s
  | .input k =>
    match k with
    | .char 'q' => none
    | .char 'h' => some { s with active_menu_item := .Home }
    | .char 'b' => some { s with active_menu_item := .Boards }
    | .down => some { s with board_list_state := handleDown s.board_list_state }
    | .up => some { s with board_list_state := handleUp s.board_list_state }
    | _ => some s

/-- The state just before entering the loop (main.rs:149-151):
`Home` active, board selection `Some(0)`. -/
def initialState : AppState :=
  { active_menu_item := .Home, board_list_state := some 0 }

/-- Run the consumer loop over a finite event trace (stopping at a
quit event). -/
def runEvents (s : AppState) : List AppEvent → AppState
  | [] => s
  | e :: es =>
      match step s e with
      | none => s
      | some s2 => runEvents s2 es

/-- Number of fetch-and-extract cycles one drawn frame performs: the
`MenuItem::Boards` branch of `terminal.draw` calls `render_boards`,
which calls `read_board_rows` once (main.rs:200-214, 334); the `Home`
branch fetches nothing. -/
def fetchesInFrame (s : AppState) : Nat :=
  match s.active_menu_item with
  | .Boards => 1
  | .Home => 0

/-- Total fetch cycles over a trace of the loop: each iteration draws
one frame (fetching if `Boards` is active) and then handles one
received event; a quit stops before any further frame. -/
def countFetches (s : AppState) : List AppEvent → Nat
  | [] => fetchesInFrame s
  | e :: es =>
      fetchesInFrame s +
        match step s e with
        | none => 0
        | some s2 => countFetches s2 es

/-- The states in which frames are drawn along a trace (one frame per
loop iteration, none after a quit). -/
def frames (s : AppState) : List AppEvent → List AppState
  | [] => [s]
  | e :: es =>
      s ::
        (match step s e with
         | none => []
         | some s2 => frames s2 es)

/-! ## The event-producer thread (main.rs:122-141) -/

/-- A raw crossterm event as returned by `event::read()`. -/
inductive CrossEvent where
  | key (k : KeyCode) : CrossEvent
  | mouse : CrossEvent
  | resize : CrossEvent
deriving Repr, DecidableEq

/-- A message on the mpsc channel. -/
inductive ChanMsg where
  | input (k : KeyCode) : ChanMsg
  | tick : ChanMsg
deriving Repr, DecidableEq

/-- Outcome of one iteration of the producer loop: continue (with the
messages delivered this iteration and whether the tick timer was
reset), or the loop ends by a panic of `expect("can send events")`. -/
inductive ProdOutcome where
  | cont (sent : List ChanMsg) (timerReset : Bool) : ProdOutcome
  | panicked (sent : List ChanMsg) : ProdOutcome
deriving Repr, DecidableEq

/-- The tick half of a producer iteration (main.rs:135-139): when a
tick is due, `tx.send(Event::Tick)` resets the timer only on `Ok`; an
`Err` (closed channel) is silently discarded and the loop goes on. -/
def tickPhase (chanOpen : Bool) (tickDue : Bool) (sent : List ChanMsg) :
    ProdOutcome :=
  if tickDue then
    if chanOpen then .cont (sent ++ [.tick]) true
    else .cont sent false
  else .cont sent false

/-- One iteration of the producer loop (main.rs:124-140): if `poll`
yielded a key event it is sent with `.expect("can send events")` —
a panic when the channel is closed; a non-key crossterm event is
discarded; then the tick phase runs. -/
def producer_iteration (chanOpen : Bool) (polled : Option CrossEvent)
    (tickDue : Bool) : ProdOutcome :=
  match polled with
  | some (.key k) =>
      if chanOpen then tickPhase chanOpen tickDue [.input k]
      else .panicked []
  | _ => tickPhase chanOpen tickDue []

/-! ## Concrete document fixtures -/

/-- A fully well-formed row container: subject with link, comment
marker, author slot (nickname and avatar image), view count and
timestamp. -/
def mkRow (title nick alt cnt hit ts : String) : HNode :=
  .elem "div" ["symph_row"] [] [
    .elem "a" ["list_subject"] [("href", "/board/" ++ title)] [
      .elem "span" ["subject_fixed"] [] [.text title]],
    .elem "span" ["rSymph05"] [] [.text cnt],
    .elem "div" ["list_author"] [] [
      .elem "span" ["nickname"] [] [.text nick],
      .elem "img" [] [("alt", alt)] []],
    .elem "div" ["list_hit"] [] [.elem "span" ["hit"] [] [.text hit]],
    .elem "div" ["list_time"] [] [.elem "span" ["timestamp"] [] [.text ts]]]

/-- A row container missing only its subject link (`list_subject`). -/
def c1BadRow : HNode :=
  .elem "div" ["symph_row"] [] [
    .elem "span" ["subject_fixed"] [] [.text "broken"],
    .elem "span" ["rSymph05"] [] [.text "1"],
    .elem "div" ["list_author"] [] [
      .elem "span" ["nickname"] [] [.text "bob"],
      .elem "img" [] [("alt", "b")] []],
    .elem "div" ["list_hit"] [] [.elem "span" ["hit"] [] [.text "5"]],
    .elem "div" ["list_time"] [] [.elem "span" ["timestamp"] [] [.text "t"]]]

/-- A well-formed row container accompanying `c1BadRow`. -/
def c1GoodRow : HNode := mkRow "good" "carol" "c" "2" "9" "t2"

/-- A document with one malformed and one well-formed row. -/
def c1Doc : List HNode := [c1BadRow, c1GoodRow]

/-- A well-formed row container with no comment-count marker. -/
def c3NoMarkerRow : HNode :=
  .elem "div" ["symph_row"] [] [
    .elem "a" ["list_subject"] [("href", "/c3")] [
      .elem "span" ["subject_fixed"] [] [.text "c3"]],
    .elem "div" ["list_author"] [] [
      .elem "span" ["nickname"] [] [.text "dave"],
      .elem "img" [] [("alt", "d")] []],
    .elem "div" ["list_hit"] [] [.elem "span" ["hit"] [] [.text "1"]],
    .elem "div" ["list_time"] [] [.elem "span" ["timestamp"] [] [.text "t"]]]

/-- A row container whose comment-count marker text `"12abc"` does not
parse as an unsigned integer. -/
def c3BadMarkerRow : HNode := mkRow "c3b" "erin" "e" "12abc" "2" "t"

/-- The row extracted from `c3NoMarkerRow`. -/
def c3NoMarkerExtracted : BoardRow :=
  { title := "c3", url := "/c3", comment_count := 0,
    nickname := "dave", hit_count := "1", timestamp := "t" }

/-- The row extracted from `c3BadMarkerRow`. -/
def c3BadMarkerExtracted : BoardRow :=
  { title := "c3b", url := "/board/c3b", comment_count := 0,
    nickname := "erin", hit_count := "2", timestamp := "t" }

/-- A row container whose nickname text is whitespace-only and whose
author image carries `alt="anon42"` (the spec's own example). -/
def c4AnonRow : HNode := mkRow "c4" "  " "anon42" "0" "3" "t"

/-- The row extracted from `c4AnonRow`. -/
def c4AnonExtracted : BoardRow :=
  { title := "c4", url := "/board/c4", comment_count := 0,
    nickname := "anon42", hit_count := "3", timestamp := "t" }

/-- A row container with a non-blank (padded) nickname text. -/
def c4NamedRow : HNode := mkRow "c4n" " alice " "x" "0" "3" "t"

/-- The row extracted from `c4NamedRow`. -/
def c4NamedExtracted : BoardRow :=
  { title := "c4n", url := "/board/c4n", comment_count := 0,
    nickname := "alice", hit_count := "3", timestamp := "t" }

/-- A document of two well-formed row containers. -/
def c5Doc : List HNode :=
  [mkRow "one" "n1" "a1" "1" "10" "t1", mkRow "two" "n2" "a2" "2" "20" "t2"]

/-! ## Helper lemmas about the extraction pipeline -/

/-- `extractRow` succeeds exactly on containers whose required queries
all succeed — the comment-count marker plays no part. -/
theorem extractRow_isSome (li : HNode) :
    (extractRow li).isSome = rowRequiredOk li := by
  unfold extractRow rowRequiredOk get_nickname
  cases h1 : (nodeSelect subjectP li).head? with
  | none => simp
  | some subject =>
    cases h2 : (nodeSelect linkP li).head? with
    | none => simp
    | some link =>
      cases h3 : link.attr "href" with
      | none => simp_all
      | some url =>
        cases h4 : (nodeSelect nickP li).head? with
        | none => simp
        | some nick =>
          by_cases hb : rustTrim (innerText nick) = ""
          · cases h5 : (nodeSelect imgP li).head? with
            | none => simp_all
            | some img =>
              cases h6 : img.attr "alt" with
              | none => simp_all
              | some alt =>
                cases h7 : (nodeSelect hitP li).head? with
                | none => simp_all
                | some hit =>
                  cases h8 : (nodeSelect tsP li).head? <;> simp_all
          · cases h7 : (nodeSelect hitP li).head? with
            | none => simp_all
            | some hit =>
              cases h8 : (nodeSelect tsP li).head? <;> simp_all

/-- The comment-count and nickname fields of a successfully extracted
row come from `get_comment_count` and `get_nickname`. -/
theorem extractRow_fields (li : HNode) (r : BoardRow)
    (h : extractRow li = some r) :
    r.comment_count = (parse_u32 (get_comment_count li)).getD 0 ∧
    get_nickname li = some r.nickname := by
  cases h1 : (nodeSelect subjectP li).head? with
  | none => simp [extractRow, h1] at h
  | some subject =>
    cases h2 : (nodeSelect linkP li).head? with
    | none => simp [extractRow, h1, h2] at h
    | some link =>
      cases h3 : link.attr "href" with
      | none => simp [extractRow, h1, h2, h3] at h
      | some url =>
        cases h4 : get_nickname li with
        | none => simp [extractRow, h1, h2, h3, h4] at h
        | some nickname =>
          cases h5 : (nodeSelect hitP li).head? with
          | none => simp [extractRow, h1, h2, h3, h4, h5] at h
          | some hit =>
            cases h6 : (nodeSelect tsP li).head? with
            | none => simp [extractRow, h1, h2, h3, h4, h5, h6] at h
            | some ts =>
              simp [extractRow, h1, h2, h3, h4, h5, h6] at h
              subst h
              exact ⟨rfl, by simp [h4]⟩

/-- Folding `extractRow` over a list of containers that all satisfy
`rowRequiredOk` succeeds and preserves length and order. -/
theorem extractRows_ok (l : List HNode)
    (h : ∀ li ∈ l, rowRequiredOk li = true) :
    ∃ rows, extractRows l = some rows ∧ rows.length = l.length ∧
      ∀ i (hi : i < l.length) (hr : i < rows.length),
        extractRow (l.get ⟨i, hi⟩) = some (rows.get ⟨i, hr⟩) := by
  induction l with
  | nil => exact ⟨[], rfl, rfl, fun i hi _ => absurd hi (Nat.not_lt_zero i)⟩
  | cons li rest ih =>
    have h1 : rowRequiredOk li = true := h li (List.mem_cons_self li rest)
    have h2 : (extractRow li).isSome = true := by
      rw [extractRow_isSome]; exact h1
    obtain ⟨r, hr⟩ := Option.isSome_iff_exists.mp h2
    obtain ⟨rows, hrows, hlen, hidx⟩ :=
      ih (fun x hx => h x (List.mem_cons_of_mem li hx))
    refine ⟨r :: rows, ?_, ?_, ?_⟩
    · simp [extractRows, hr, hrows]
    · simp [hlen]
    · intro i hi hri
      cases i with
      | zero => simpa using hr
      | succ n =>
          simpa using hidx n (by simpa using hi) (by simpa using hri)

/-! ## Claims C1-C5: the extraction pipeline -/

/-- C1: the claim says a row container missing a required field (here
the subject link) is dropped while the remaining well-formed rows are
still extracted, and that the call as a whole never fails.  The code
instead `unwrap`s each required query: on `c1Doc` — a malformed row
followed by a well-formed one — `get_board_data` panics (`none`) and
no rows at all are produced, although the well-formed row on its own
extracts fine.  The spec's design notes state the non-crashing policy
as the intended contract, so this is a defect of the code. -/
theorem c1_missing_required_field_aborts :
    nodeSelect linkP c1BadRow = [] ∧
    rowRequiredOk c1GoodRow = true ∧
    get_board_data c1Doc = none ∧
    get_board_data [c1GoodRow] =
      some [{ title := "good", url := "/board/good", comment_count := 2,
              nickname := "carol", hit_count := "9", timestamp := "t2" }] :=
  ⟨rfl, rfl, rfl, rfl⟩

/-- C2: the claim says a Fetch Gateway failure leaves the navigation
state intact, surfaces the failure, and never terminates the process.
The code panics instead: `request_url` calls
`.expect("Unable to get response.")` on a transport error and
`read_board_rows` calls `resp.text().unwrap()`, so both failures abort
the process (`none`); and a non-2xx response is not even detected as a
failure — its body is extracted as if it were a success.  The spec's
own rule that no error terminates the process marks this as a defect
of the code. -/
theorem c2_fetch_failure_panics :
    read_board_rows NetResult.err = none ∧
    read_board_rows (NetResult.ok 200 none) = none ∧
    read_board_rows (NetResult.ok 500 (some [])) = some [] :=
  ⟨rfl, rfl, rfl⟩

/-- C3: an extracted row has `comment_count = 0` when the
comment-count marker is absent, and also when the marker is present
but its text does not parse as an unsigned integer; and whether a row
container extracts successfully is `rowRequiredOk`, which does not
inspect the comment-count marker at all — so such a row is never
dropped for its comment count. -/
theorem c3_comment_count_defaults (li : HNode) (r : BoardRow) :
    (extractRow li = some r → nodeSelect commentP li = [] →
        r.comment_count = 0) ∧
    (∀ n, extractRow li = some r → (nodeSelect commentP li).head? = some n →
        parse_u32 (innerText n) = none → r.comment_count = 0) ∧
    (extractRow li).isSome = rowRequiredOk li := by
  refine ⟨?_, ?_, extractRow_isSome li⟩
  · intro h hempty
    have hc := (extractRow_fields li r h).1
    have h0 : get_comment_count li = "0" := by
      unfold get_comment_count
      rw [hempty]
      rfl
    rw [h0] at hc
    simpa using hc
  · intro n h hmark hparse
    have hc := (extractRow_fields li r h).1
    have h0 : get_comment_count li = innerText n := by
      unfold get_comment_count
      rw [hmark]
    rw [h0, hparse] at hc
    simpa using hc

/-- Witness for C3: a marker-free container and an unparsable-marker
container both extract with `comment_count = 0`. -/
theorem c3_comment_count_defaults_witness :
    extractRow c3NoMarkerRow = some c3NoMarkerExtracted ∧
    c3NoMarkerExtracted.comment_count = 0 ∧
    extractRow c3BadMarkerRow = some c3BadMarkerExtracted ∧
    c3BadMarkerExtracted.comment_count = 0 := by
  refine ⟨rfl, ?_, rfl, ?_⟩
  · exact (c3_comment_count_defaults c3NoMarkerRow c3NoMarkerExtracted).1
      rfl rfl
  · exact (c3_comment_count_defaults c3BadMarkerRow c3BadMarkerExtracted).2.1
      (.elem "span" ["rSymph05"] [] [.text "12abc"]) rfl rfl rfl

/-- C4: for a row container whose first nickname node is `nick` and
which extracts to `r`: a non-blank nickname text makes the author the
trimmed text; a blank one makes it the trimmed `alt` attribute of the
first image in the author slot. -/
theorem c4_author_fallback (li nick : HNode) (r : BoardRow)
    (hn : (nodeSelect nickP li).head? = some nick)
    (hr : extractRow li = some r) :
    (rustTrim (innerText nick) ≠ "" →
        r.nickname = rustTrim (innerText nick)) ∧
    (∀ img a, rustTrim (innerText nick) = "" →
        (nodeSelect imgP li).head? = some img → img.attr "alt" = some a →
        r.nickname = rustTrim a) := by
  have hnick := (extractRow_fields li r hr).2
  constructor
  · intro hne
    unfold get_nickname at hnick
    rw [hn] at hnick
    simp [hne] at hnick
    exact hnick.symm
  · intro img a hbl himg halt
    unfold get_nickname at hnick
    rw [hn] at hnick
    simp [hbl, himg, halt] at hnick
    exact hnick.symm

/-- Witness for C4: blank nickname with `alt="anon42"` yields author
`"anon42"`; padded nickname `" alice "` yields `"alice"`. -/
theorem c4_author_fallback_witness :
    extractRow c4AnonRow = some c4AnonExtracted ∧
    c4AnonExtracted.nickname = "anon42" ∧
    extractRow c4NamedRow = some c4NamedExtracted ∧
    c4NamedExtracted.nickname = "alice" := by
  refine ⟨rfl, ?_, rfl, ?_⟩
  · have h :=
      (c4_author_fallback c4AnonRow (.elem "span" ["nickname"] [] [.text "  "])
        c4AnonExtracted rfl rfl).2
        (.elem "img" [] [("alt", "anon42")] []) "anon42" rfl rfl rfl
    simpa using h
  · have h :=
      (c4_author_fallback c4NamedRow
        (.elem "span" ["nickname"] [] [.text " alice "])
        c4NamedExtracted rfl rfl).1 (by decide)
    simpa using h

/-- C5: when every row container of a document satisfies all required
queries, extraction succeeds and returns exactly as many rows as there
are containers, the i-th row extracted from the i-th container in
document order. -/
theorem c5_extract_count_and_order (doc : List HNode)
    (h : ∀ li ∈ docSelect symphRowP doc, rowRequiredOk li = true) :
    ∃ rows, get_board_data doc = some rows ∧
      rows.length = (docSelect symphRowP doc).length ∧
      ∀ i (hi : i < (docSelect symphRowP doc).length) (hr : i < rows.length),
        extractRow ((docSelect symphRowP doc).get ⟨i, hi⟩) =
          some (rows.get ⟨i, hr⟩) :=
  extractRows_ok _ h

/-- Witness for C5: a concrete two-row document extracts to exactly
two rows in order. -/
theorem c5_extract_count_and_order_witness :
    (∃ rows, get_board_data c5Doc = some rows ∧
      rows.length = (docSelect symphRowP c5Doc).length ∧
      ∀ i (hi : i < (docSelect symphRowP c5Doc).length)
          (hr : i < rows.length),
        extractRow ((docSelect symphRowP c5Doc).get ⟨i, hi⟩) =
          some (rows.get ⟨i, hr⟩)) ∧
    (docSelect symphRowP c5Doc).length = 2 :=
  ⟨c5_extract_count_and_order c5Doc (by decide), rfl⟩

/-! ## Claims C6-C10: the navigation loop and the event producer -/

/-- C6: for the program's board list (of length `n = 1`), a Down event
at index `n - 1` wraps the selection to `0`, an Up event at `0` wraps
it to `n - 1`, and with no selection (as for an empty list) either
handler leaves the selection absent — no underflow and no
out-of-bounds index. -/
theorem c6_board_selection_wraparound :
    handleDown (some (read_boards.length - 1)) = some 0 ∧
    handleUp (some 0) = some (read_boards.length - 1) ∧
    handleDown none = none ∧ handleUp none = none := by
  decide

/-- C7: the `h` and `b` key events change only `active_menu_item`; the
whole rest of the state — in particular `board_list_state` — is
untouched by the view switch. -/
theorem c7_switch_view_preserves_selection (s : AppState) :
    step s (.input (.char 'h')) =
        some { s with active_menu_item := .Home } ∧
    step s (.input (.char 'b')) =
        some { s with active_menu_item := .Boards } :=
  ⟨rfl, rfl⟩

/-- Counterexample to C8: the claim says events that change neither
the view nor the board (such as ticks) trigger no additional fetch
cycles, so entering Boards and then receiving two ticks would fetch
exactly once.  The loop instead fetches on every frame drawn with
Boards active — here three times. -/
theorem c8_tick_triggers_refetch :
    countFetches initialState [.input (.char 'b'), .tick, .tick] = 3 ∧
    countFetches initialState [.input (.char 'b'), .tick, .tick] ≠ 1 := by
  decide

/-- A frame fetches exactly when `Boards` is the active view. -/
theorem fetchesInFrame_eq (s : AppState) :
    fetchesInFrame s =
      if s.active_menu_item == MenuItem.Boards then 1 else 0 := by
  cases s with
  | mk m sel => cases m <;> rfl

/-- C8 amended: each frame drawn with the Boards view active performs
exactly one synchronous fetch-and-extract cycle — including the frames
drawn after ticks and other non-switching events — and frames drawn
with Home active perform none; the total fetch count over any trace is
the number of Boards frames. -/
theorem c8_one_fetch_per_boards_frame (s : AppState) (es : List AppEvent) :
    countFetches s es =
      (frames s es).countP (fun st => st.active_menu_item == MenuItem.Boards) := by
  induction es generalizing s with
  | nil => simp [countFetches, frames, List.countP_cons, fetchesInFrame_eq]
  | cons e es ih =>
      cases hstep : step s e with
      | none =>
          simp [countFetches, frames, hstep, List.countP_cons,
            fetchesInFrame_eq]
      | some s2 =>
          simp [countFetches, frames, hstep, List.countP_cons,
            fetchesInFrame_eq, ih, Nat.add_comm]

/-- Counterexample to C9: the claim says that with the downstream
channel closed the producer terminates its loop and drops no event
silently.  When the channel is closed and a tick is due (and no key
was polled), the iteration sends nothing, does not reset the tick
timer, and continues the loop — the due tick is silently discarded. -/
theorem c9_closed_channel_tick_dropped :
    producer_iteration false none true = ProdOutcome.cont [] false := by
  decide

/-- C9 amended: with the channel open, every polled key event and
every due tick is delivered; with the channel closed, a polled key
event makes the producer panic (ending its loop), but a due tick whose
send fails is silently discarded and the loop continues without
resetting its timer. -/
theorem c9_producer_iteration_spec (d : Bool) (k : KeyCode) :
    producer_iteration true (some (.key k)) d =
        .cont (ChanMsg.input k :: (if d then [ChanMsg.tick] else [])) d ∧
    producer_iteration true none d =
        .cont (if d then [ChanMsg.tick] else []) d ∧
    producer_iteration false (some (.key k)) d = .panicked [] ∧
    producer_iteration false none d = .cont [] false := by
  cases d <;> simp [producer_iteration, tickPhase]

/-- A loop step starting from selection `Some(0)` keeps it `Some(0)`:
the view switches and unknown keys do not touch it, and the Down/Up
handlers (with the board count hardcoded at 1) re-select index 0. -/
theorem step_preserves_selection (s : AppState) (e : AppEvent)
    (s2 : AppState) (hstep : step s e = some s2)
    (h : s.board_list_state = some 0) :
    s2.board_list_state = some 0 := by
  cases e with
  | tick =>
      simp [step] at hstep
      subst hstep
      exact h
  | input k =>
      cases k with
      | down =>
          simp [step] at hstep
          subst hstep
          simp [handleDown, h]
      | up =>
          simp [step] at hstep
          subst hstep
          simp [handleUp, h]
      | other =>
          simp [step] at hstep
          subst hstep
          exact h
      | char c =>
          simp only [step] at hstep
          split at hstep <;> simp_all [handleDown, handleUp] <;>
            (subst hstep; rfl)

/-- The selection invariant holds after any event trace. -/
theorem runEvents_preserves_selection (es : List AppEvent) :
    ∀ s : AppState, s.board_list_state = some 0 →
      (runEvents s es).board_list_state = some 0 := by
  induction es with
  | nil => exact fun s h => h
  | cons e es ih =>
      intro s h
      unfold runEvents
      cases hstep : step s e with
      | none => exact h
      | some s2 => exact ih s2 (step_preserves_selection s e s2 hstep h)

/-- C10: the board registry is exactly the one board
`{추천글, recommend}`, and in every state reachable from the loop's
initial state the selected board index is `Some(0)`: it starts as
`Some(0)` and every event handler re-establishes it. -/
theorem c10_registry_and_selection_invariant (es : List AppEvent) :
    read_boards = [{ name := "추천글", uri := "recommend" }] ∧
    read_boards.length = 1 ∧
    initialState.board_list_state = some 0 ∧
    (runEvents initialState es).board_list_state = some 0 :=
  ⟨rfl, rfl, rfl, runEvents_preserves_selection es initialState rfl⟩

end Commweb
